import Mathlib

/-!
Verification development for the redis-throttle module (`src/lib.rs`).

The repository's visible source is the command-level adapter
(`ThrottleCommand::run`, `actions_per_second`, `parse_i64`, module
registration).  The rate-limiter engine itself (`throttle::RateLimiter`,
`throttle::Rate`, `throttle::RateQuota`, `throttle::store`) lives in modules
that are not part of the visible source tree; those parts are modelled from
the specification (§3, §4.3) and marked as such in their doc comments.

Conventions of the embedding:
* Time instants and durations are integers counting milliseconds
  (`time::Duration` in the source is millisecond-quantized here because every
  duration entering the engine is built by `time::Duration::milliseconds`).
* The single persisted scalar per bucket (the theoretical arrival time, TAT)
  is an `Option Int`: `none` models an absent/expired key.  The store
  round-trip is modelled by passing the stored TAT in and the written TAT out
  of one evaluation; the backend's `now` is a parameter.
* Rust `i64` values are modelled as `Int`; `parse_i64` enforces the i64
  range exactly as Rust's `str::parse::<i64>` does.
* The `f64` arithmetic of `actions_per_second` is modelled faithfully:
  a finite IEEE-754 binary64 value is represented by its exact value
  `m * 2^(e-52)` with integer mantissa `m` and exponent `e`, every operation
  of the source's expression is rounded to nearest with ties to even
  (`roundF64`), and the `as i64` cast truncates toward zero.
* `Duration::num_seconds` truncates toward zero, modelled by `Int.tdiv`.
-/

/-- Errors surfaced by the command.  The source's `ThrottleError` variants all
carry a formatted message (built by the `error!` macro). -/
inductive ThrottleError where
  | generic (message : String)
deriving DecidableEq

/-- The message carried by a `ThrottleError`. -/
def ThrottleError.message : ThrottleError → String
  | ThrottleError.generic m => m

/-- Numeric value of a non-empty list of decimal digit characters (most
significant first); `none` if the list is empty or contains a non-digit
character.  Models the accumulation loop of Rust's integer `FromStr`. -/
def digitsValue (cs : List Char) : Option Nat :=
  match cs with
  | [] => none
  | _ =>
    cs.foldl
      (fun acc c =>
        match acc with
        | none => none
        | some n => if c.isDigit then some (n * 10 + (c.toNat - 48)) else none)
      (some 0)

/-- Largest value of a Rust `i64`. -/
def I64_MAX : Int := 2 ^ 63 - 1

/-- Rust's `arg.parse::<i64>()` (an optional single `+`/`-` sign followed by
one or more ASCII digits, value within the i64 range — Rust detects overflow
during accumulation, which is equivalent to the final range check used
here); `none` on failure. -/
def parse_i64_val (arg : String) : Option Int :=
  match arg.toList with
  | '+' :: rest =>
    (digitsValue rest).bind fun n =>
      if (n : Int) ≤ I64_MAX then some (n : Int) else none
  | '-' :: rest =>
    (digitsValue rest).bind fun n =>
      if (n : Int) ≤ 2 ^ 63 then some (-(n : Int)) else none
  | cs =>
    (digitsValue cs).bind fun n =>
      if (n : Int) ≤ I64_MAX then some (n : Int) else none

/-- From `fn parse_i64(arg: &str)` (src/lib.rs:121-124): parse the string as
an i64, and on any failure produce (via `map_err`) the error
`"Couldn't parse as integer: {arg}"`. -/
def parse_i64 (arg : String) : Except ThrottleError Int :=
  match parse_i64_val arg with
  | some n => Except.ok n
  | none => Except.error (ThrottleError.generic ("Couldn't parse as integer: " ++ arg))

/-- Floor of the base-2 logarithm, by structural recursion on a fuel bound so
the kernel can evaluate it (`log2fuel f n` is exact whenever `n < 2^f`). -/
def log2fuel : Nat → Nat → Nat
  | 0, _ => 0
  | f + 1, n => if 2 ≤ n then log2fuel f (n / 2) + 1 else 0

/-- `⌊log2 n⌋` for `n ≥ 1`; every number arising below is far below `2^256`. -/
def natLog2 (n : Nat) : Nat := log2fuel 256 n

/-- Round the non-negative rational `n / d` (with `d > 0`) to the nearest
integer, ties to even — the IEEE-754 default rounding. -/
def roundHalfEven (n d : Nat) : Nat :=
  let q := n / d
  let r := n % d
  if 2 * r < d then q
  else if d < 2 * r then q + 1
  else if q % 2 = 0 then q else q + 1

/-- The binade of the positive rational `n / d`: starting from the estimate
`e0 = ⌊log2 n⌋ - ⌊log2 d⌋`, return the exponent `e` with
`2^e ≤ n / d < 2^(e+1)` (the estimate is exact or one too high). -/
def expAdjust (e0 : Int) (n d : Nat) : Int :=
  if 0 ≤ e0 then (if 2 ^ e0.toNat * d ≤ n then e0 else e0 - 1)
  else (if d ≤ n * 2 ^ (-e0).toNat then e0 else e0 - 1)

/-- The 53-bit significand of `n / d` at binade `e`: the value `n / d` scaled
into `[2^52, 2^53)` and rounded to the nearest integer, ties to even. -/
def mantissaAt (e : Int) (n d : Nat) : Nat :=
  if 0 ≤ 52 - e then roundHalfEven (n * 2 ^ (52 - e).toNat) d
  else roundHalfEven n (d * 2 ^ (e - 52).toNat)

/-- Round the positive rational `n / d` (both ≥ 1) to the nearest IEEE-754
binary64 value, ties to even: the result `(m, e)` denotes `m * 2^(e-52)`
with `2^52 ≤ m ≤ 2^53`.  The exponent is not clamped — every value arising
from i64 operands in this file sits far inside the binary64 exponent range,
so no overflow, underflow or subnormal case is reachable. -/
def roundF64 (n d : Nat) : Nat × Int :=
  (mantissaAt (expAdjust ((natLog2 n : Int) - (natLog2 d : Int)) n d) n d,
   expAdjust ((natLog2 n : Int) - (natLog2 d : Int)) n d)

/-- The exact quotient of the two binary64 values `x` and `y` (each given as
significand/exponent pairs) as a fraction of naturals. -/
def divFrac (x y : Nat × Int) : Nat × Nat :=
  if 0 ≤ x.2 - y.2 then (x.1 * 2 ^ (x.2 - y.2).toNat, y.1)
  else (x.1, y.1 * 2 ^ (y.2 - x.2).toNat)

/-- The exact product of the binary64 value `x` with the constant 1000.0 as
a fraction of naturals. -/
def mul1000Frac (x : Nat × Int) : Nat × Nat :=
  if 0 ≤ x.2 - 52 then (x.1 * 1000 * 2 ^ (x.2 - 52).toNat, 1)
  else (x.1 * 1000, 2 ^ (52 - x.2).toNat)

/-- Correctly round a positive fraction to binary64. -/
def roundFrac (nd : Nat × Nat) : Nat × Int := roundF64 nd.1 nd.2

/-- The integer part (truncation) of the positive binary64 value `x`. -/
def truncF64 (x : Nat × Int) : Nat :=
  if 0 ≤ x.2 - 52 then x.1 * 2 ^ (x.2 - 52).toNat else x.1 / 2 ^ (52 - x.2).toNat

/-- From `fn actions_per_second(count: i64, period: i64)` (src/lib.rs:117-119):
`time::Duration::milliseconds(((period as f64) / (count as f64) * 1000.0) as i64)`.
Modelled as the IEEE-754 binary64 evaluation of that expression: each i64
operand is rounded to the nearest double (`roundF64 _ 1`, exact below 2^53),
the quotient of the two doubles and the product by the exact constant 1000.0
are each correctly rounded, and the final `as i64` cast truncates toward
zero, with the sign handled symmetrically as IEEE arithmetic does.  The
result is the emission interval in milliseconds.  `count = 0` makes the
source divide by zero (the cast of the resulting infinity being undefined in
the source's Rust era) and is mapped to 0 here; no theorem exercises it. -/
def actions_per_second (count period : Int) : Int :=
  if count = 0 then 0
  else if period = 0 then 0
  else
    let mag : Nat :=
      truncF64 (roundFrac (mul1000Frac (roundFrac
        (divFrac (roundF64 period.natAbs 1) (roundF64 count.natAbs 1)))))
    if count < 0 ↔ period < 0 then (mag : Int) else -(mag : Int)

/-- Modelled from the spec (§3 Quota model; the `throttle::Rate` type is not
in the visible source): one action per fixed emission interval, the interval
held in milliseconds. -/
structure Rate where
  period : Int
deriving DecidableEq

/-- Modelled from the spec (§3; the `throttle::RateQuota` type is not in the
visible source): burst capacity plus sustained rate. -/
structure RateQuota where
  max_burst : Int
  max_rate : Rate
deriving DecidableEq

/-- Modelled from the spec (§3; the `throttle::RateLimitResult` type is not
in the visible source).  Durations in milliseconds. -/
structure RateLimitResult where
  limit : Int
  remaining : Int
  retry_after : Int
  reset_after : Int
deriving DecidableEq

/-- §4.1: the per-action cost in time. -/
def emission_interval (q : RateQuota) : Int := q.max_rate.period

/-- §4.1: `delay_variation_tolerance = emission_interval * max_burst`, the
maximum credit a bucket can accumulate. -/
def delay_variation_tolerance (q : RateQuota) : Int :=
  emission_interval q * q.max_burst

/-- Modelled from the spec: `throttle::RateLimiter::rate_limit` (invoked at
src/lib.rs:60) is not in the visible source; this is the GCRA evaluation of
§4.3 steps 1-7.  `stored_tat` is the bucket's persisted TAT read through the
store (`none` when absent), `now` the backend's clock at the read.  Returns
`(throttled, result, written_tat)` where `written_tat` is the bucket state
after the call (unchanged on throttle, per §4.3 step 6).  On throttle,
`remaining` and `reset_after` are computed from the unmodified `tat` (step 6),
i.e. by the step-7 formulas with `tat` in place of `new_tat`; `retry_after`
is `allow_at - now` (step 6) and is left `0` on admission, where §3 declares
it "not applicable" (no claim depends on the admitted-path value). -/
def rate_limit (q : RateQuota) (stored_tat : Option Int) (now quantity : Int) :
    Bool × RateLimitResult × Option Int :=
  let ei := emission_interval q
  let dvt := delay_variation_tolerance q
  let tat := max (stored_tat.getD now) now
  let increment := ei * quantity
  let new_tat := tat + increment
  let allow_at := new_tat - dvt - ei
  if now < allow_at then
    (true,
      { limit := q.max_burst + 1
        remaining := q.max_burst - Int.fdiv (tat - now - ei) ei
        retry_after := allow_at - now
        reset_after := tat - now },
      stored_tat)
  else
    (false,
      { limit := q.max_burst + 1
        remaining := q.max_burst - Int.fdiv (new_tat - now - ei) ei
        retry_after := 0
        reset_after := new_tat - now },
      some new_tat)

/-- `time::Duration::num_seconds`: whole seconds of a millisecond duration,
truncated toward zero. -/
def num_seconds (d : Int) : Int := Int.tdiv d 1000

/-- The reply array built at src/lib.rs:66-71: five integers, in order
`throttled` (1/0), `limit`, `remaining`, `retry_after` in whole seconds,
`reset_after` in whole seconds. -/
def reply_of (throttled : Bool) (res : RateLimitResult) : List Int :=
  [if throttled then 1 else 0, res.limit, res.remaining,
   num_seconds res.retry_after, num_seconds res.reset_after]

/-- The body of `ThrottleCommand::run` after argument parsing
(src/lib.rs:49-73): build the store-backed limiter with
`Rate { period: actions_per_second(count, period) }` and
`RateQuota { max_burst, max_rate }`, call `rate_limit(bucket, quantity)`, and
reply with the five-integer array. -/
def run_limiter (max_burst count period quantity : Int) (stored : Option Int)
    (now : Int) : Except ThrottleError (List Int × Option Int) :=
  let rate : Rate := { period := actions_per_second count period }
  let q : RateQuota := { max_burst := max_burst, max_rate := rate }
  match rate_limit q stored now quantity with
  | (throttled, res, st) => Except.ok (reply_of throttled res, st)

/-- `ThrottleCommand::name()` (src/lib.rs:23-25). -/
def ThrottleCommand.name : String := "throttle"

/-- `ThrottleCommand::str_flags()` (src/lib.rs:27-29). -/
def ThrottleCommand.str_flags : String := "readonly"

/-- `ThrottleCommand::run` (src/lib.rs:33-74).  `args` is the full argument
vector including the command name at position 0.  Exactly as in the source:
reject any length other than 5 or 6 with the usage error; otherwise parse
`max_burst`, `count`, `period` (positions 2-4) and `quantity` (position 5,
defaulting to 1 when absent) with `parse_i64`, propagating the first parse
error (`try!`), then run the limiter.  `stored`/`now` stand for the Redis
store state visible to this command invocation. -/
def ThrottleCommand.run (args : List String) (stored : Option Int) (now : Int) :
    Except ThrottleError (List Int × Option Int) :=
  if args.length ≠ 5 ∧ args.length ≠ 6 then
    Except.error (ThrottleError.generic
      "Usage: throttle <bucket> <max_burst> <count> <period> [<quantity>]")
  else
    (parse_i64 (args.getD 2 "")).bind fun max_burst =>
      (parse_i64 (args.getD 3 "")).bind fun count =>
        (parse_i64 (args.getD 4 "")).bind fun period =>
          (match args[5]? with
            | some n => parse_i64 n
            | none => Except.ok 1).bind fun quantity =>
            run_limiter max_burst count period quantity stored now

/-- Host registration status (`raw::Status`). -/
inductive Status where
  | ok
  | err
deriving DecidableEq

/-- `RedisModule_OnLoad` (src/lib.rs:90-112), abstracted over the two host
calls it makes: `init_ok` is the outcome of `raw::init` and `create_ok` the
outcome of the single `raw::create_command` call.  Returns the status and the
list of commands (name, flag string) successfully registered. -/
def RedisModule_OnLoad (init_ok create_ok : Bool) : Status × List (String × String) :=
  if init_ok = false then (Status.err, [])
  else if create_ok = false then (Status.err, [])
  else (Status.ok, [(ThrottleCommand.name, ThrottleCommand.str_flags)])

/-- Bucket state after `n` single-unit evaluations of the same bucket with no
elapsed time between them, starting from a fresh (absent) bucket. -/
def immediate_calls (q : RateQuota) (now : Int) : Nat → Option Int
  | 0 => none
  | Nat.succ k => (rate_limit q (immediate_calls q now k) now 1).2.2

example : parse_i64 "5" = Except.ok 5 := rfl
example : parse_i64 "-17" = Except.ok (-17) := rfl
example : (parse_i64 "abc").isOk = false := by decide
example : actions_per_second 1 2 = 2000 := by decide
example : actions_per_second 10 2 = 200 := by decide
example : actions_per_second 3 1 = 333 := by decide

/-! ## Helper lemmas -/

theorem except_bind_some {ε α β : Type} (x : Except ε α) (f : α → Except ε β)
    (y : β) (h : x.bind f = Except.ok y) :
    ∃ a, x = Except.ok a ∧ f a = Except.ok y := by
  cases x with
  | error e => exact absurd h (by simp [Except.bind])
  | ok a => exact ⟨a, rfl, h⟩

/-- One GCRA step that is admitted: if the stored TAT reads back as
`now + k·ei` with `0 ≤ k ≤ max_burst`, a single-unit request is admitted with
`remaining = max_burst - k` and the state advances by one emission interval. -/
theorem rate_limit_step_admitted (b ei now k : Int) (stored : Option Int)
    (hei : 0 < ei) (hk : 0 ≤ k) (hkb : k ≤ b)
    (hst : stored.getD now = now + k * ei) :
    rate_limit ⟨b, ⟨ei⟩⟩ stored now 1 =
      (false, ⟨b + 1, b - k, 0, (k + 1) * ei⟩, some (now + (k + 1) * ei)) := by
  have hmax : max (stored.getD now) now = now + k * ei := by
    rw [hst]
    exact max_eq_left (by nlinarith)
  have hcond : ¬ (now < now + k * ei + ei * 1 - ei * b - ei) := by nlinarith
  have hfd : Int.fdiv (now + k * ei + ei * 1 - now - ei) ei = k := by
    have harg : now + k * ei + ei * 1 - now - ei = k * ei := by ring
    rw [harg, Int.mul_fdiv_cancel _ (ne_of_gt hei)]
  have e1 : now + k * ei + ei * 1 - now = (k + 1) * ei := by ring
  have e2 : now + k * ei + ei * 1 = now + (k + 1) * ei := by ring
  simp only [rate_limit, emission_interval, delay_variation_tolerance, hmax,
    if_neg hcond, hfd]
  rw [e1, e2]

/-- One GCRA step that is throttled: if the stored TAT reads back as
`now + k·ei` with `k > max_burst`, a single-unit request is throttled. -/
theorem rate_limit_step_throttled (b ei now k : Int) (stored : Option Int)
    (hei : 0 < ei) (hk : 0 ≤ k) (hkb : b < k)
    (hst : stored.getD now = now + k * ei) :
    (rate_limit ⟨b, ⟨ei⟩⟩ stored now 1).1 = true := by
  have hmax : max (stored.getD now) now = now + k * ei := by
    rw [hst]
    exact max_eq_left (by nlinarith)
  have hcond : now < now + k * ei + ei * 1 - ei * b - ei := by nlinarith
  simp only [rate_limit, emission_interval, delay_variation_tolerance, hmax,
    if_pos hcond]

/-- After `k ≤ max_burst + 1` immediate single-unit calls on a fresh bucket
the stored TAT reads back as `now + k·ei`. -/
theorem immediate_calls_getD (b : Nat) (ei now : Int) (hei : 0 < ei) :
    ∀ k : Nat, k ≤ b + 1 →
      (immediate_calls ⟨(b : Int), ⟨ei⟩⟩ now k).getD now = now + (k : Int) * ei := by
  intro k
  induction k with
  | zero => intro _; simp [immediate_calls]
  | succ k ih =>
    intro hk
    have h1 := ih (by omega)
    have hkb : (k : Int) ≤ (b : Int) := by exact_mod_cast Nat.lt_succ_iff.mp (by omega)
    have hstep := rate_limit_step_admitted (b : Int) ei now (k : Int) _ hei
      (Int.natCast_nonneg k) hkb h1
    show ((rate_limit ⟨(b : Int), ⟨ei⟩⟩ (immediate_calls ⟨(b : Int), ⟨ei⟩⟩ now k)
      now 1).2.2).getD now = _
    rw [hstep]
    simp only [Option.getD_some]
    push_cast
    ring

/-! ## Claim theorems -/

/-- C1: an evaluation that results in throttled writes no state change to the
store, so every later evaluation of the same bucket returns the same outcome
as if the throttled call had never been made. -/
theorem c1_throttle_writes_no_state (q : RateQuota) (st : Option Int)
    (now qty : Int) (res : RateLimitResult) (st' : Option Int)
    (h : rate_limit q st now qty = (true, res, st')) :
    st' = st ∧ ∀ now2 qty2 : Int,
      rate_limit q st' now2 qty2 = rate_limit q st now2 qty2 := by
  simp only [rate_limit] at h
  split at h
  · have hst : st = st' := congrArg (fun p => p.2.2) h
    exact ⟨hst.symm, fun now2 qty2 => by rw [hst]⟩
  · have hb : false = true := congrArg (fun p => p.1) h
    exact absurd hb (by simp)

theorem c1_throttle_writes_no_state_witness :
    rate_limit ⟨0, ⟨1000⟩⟩ (some 1000) 0 1 =
      (true, ⟨1, 0, 1000, 1000⟩, some 1000) ∧
    ((some 1000 : Option Int) = some 1000 ∧ ∀ now2 qty2 : Int,
      rate_limit ⟨0, ⟨1000⟩⟩ (some 1000) now2 qty2 =
        rate_limit ⟨0, ⟨1000⟩⟩ (some 1000) now2 qty2) :=
  ⟨rfl, c1_throttle_writes_no_state ⟨0, ⟨1000⟩⟩ (some 1000) 0 1 ⟨1, 0, 1000, 1000⟩
    (some 1000) rfl⟩

/-- C2: for a quota with `max_burst = b` and a positive emission interval, the
first `b+1` single-unit requests on a fresh bucket with no elapsed time are
all admitted with `remaining` decreasing by 1 from `b`, and the `(b+2)`-th
immediate request is throttled. -/
theorem c2_burst_sequence (b : Nat) (ei now : Int) (hei : 0 < ei) :
    (∀ k : Nat, k ≤ b →
      rate_limit ⟨(b : Int), ⟨ei⟩⟩ (immediate_calls ⟨(b : Int), ⟨ei⟩⟩ now k)
          now 1 =
        (false, ⟨(b : Int) + 1, (b : Int) - (k : Int), 0, ((k : Int) + 1) * ei⟩,
          some (now + ((k : Int) + 1) * ei))) ∧
    (rate_limit ⟨(b : Int), ⟨ei⟩⟩
      (immediate_calls ⟨(b : Int), ⟨ei⟩⟩ now (b + 1)) now 1).1 = true := by
  constructor
  · intro k hk
    exact rate_limit_step_admitted (b : Int) ei now (k : Int) _ hei
      (Int.natCast_nonneg k) (by exact_mod_cast hk)
      (immediate_calls_getD b ei now hei k (by omega))
  · refine rate_limit_step_throttled (b : Int) ei now ((b : Int) + 1) _ hei
      (by positivity) (by omega) ?_
    have := immediate_calls_getD b ei now hei (b + 1) (by omega)
    rw [this]
    push_cast
    ring_nf

theorem c2_burst_sequence_witness :
    (0 : Int) < 1000 ∧
    (rate_limit ⟨((1 : Nat) : Int), ⟨1000⟩⟩
      (immediate_calls ⟨((1 : Nat) : Int), ⟨1000⟩⟩ 0 2) 0 1).1 = true :=
  ⟨by norm_num, (c2_burst_sequence 1 1000 0 (by norm_num)).2⟩

/-- C7: any argument list whose length (command name included) is neither 5
nor 6 yields the usage error, for every store state and clock — no argument
is parsed and the engine is never invoked. -/
theorem c7_usage_error (args : List String) (stored : Option Int) (now : Int)
    (h5 : args.length ≠ 5) (h6 : args.length ≠ 6) :
    ThrottleCommand.run args stored now =
      Except.error (ThrottleError.generic
        "Usage: throttle <bucket> <max_burst> <count> <period> [<quantity>]") := by
  unfold ThrottleCommand.run
  rw [if_pos ⟨h5, h6⟩]

theorem c7_usage_error_witness :
    (["throttle", "b", "4"] : List String).length ≠ 5 ∧
    (["throttle", "b", "4"] : List String).length ≠ 6 ∧
    ThrottleCommand.run ["throttle", "b", "4"] none 0 =
      Except.error (ThrottleError.generic
        "Usage: throttle <bucket> <max_burst> <count> <period> [<quantity>]") :=
  ⟨by decide, by decide,
    c7_usage_error ["throttle", "b", "4"] none 0 (by decide) (by decide)⟩

/-- C9: the module registers exactly one host command, named "throttle", with
the flag string "readonly" — even though an admitted evaluation writes bucket
state (shown here on a concrete admitted call that stores a new TAT). -/
theorem c9_registration :
    RedisModule_OnLoad true true =
      (Status.ok, [("throttle", "readonly")]) ∧
    (RedisModule_OnLoad true true).2.length = 1 ∧
    ThrottleCommand.name = "throttle" ∧
    ThrottleCommand.str_flags = "readonly" ∧
    ((rate_limit ⟨4, ⟨1000⟩⟩ none 0 1).1 = false ∧
      (rate_limit ⟨4, ⟨1000⟩⟩ none 0 1).2.2 = some 1000 ∧
      (some (1000 : Int) ≠ (none : Option Int))) :=
  ⟨rfl, rfl, rfl, rfl, rfl, rfl, by simp⟩

/-- C5: every successful invocation replies with an array of exactly five
integers in order: throttled encoded as 1/0, limit, remaining, retry_after in
whole (truncated) seconds, reset_after in whole (truncated) seconds. -/
theorem c5_reply_shape (args : List String) (stored : Option Int) (now : Int)
    (reply : List Int) (st' : Option Int)
    (h : ThrottleCommand.run args stored now = Except.ok (reply, st')) :
    ∃ (throttled : Bool) (res : RateLimitResult),
      reply = [if throttled then 1 else 0, res.limit, res.remaining,
               num_seconds res.retry_after, num_seconds res.reset_after] := by
  unfold ThrottleCommand.run at h
  split at h
  · exact absurd h (by simp)
  · obtain ⟨mb, _, h⟩ := except_bind_some _ _ _ h
    obtain ⟨c, _, h⟩ := except_bind_some _ _ _ h
    obtain ⟨p, _, h⟩ := except_bind_some _ _ _ h
    obtain ⟨qty, _, h⟩ := except_bind_some _ _ _ h
    simp only [run_limiter] at h
    rcases hr : rate_limit ⟨mb, ⟨actions_per_second c p⟩⟩ stored now qty with
      ⟨t, res, st⟩
    rw [hr] at h
    simp only [Except.ok.injEq, Prod.mk.injEq] at h
    exact ⟨t, res, h.1.symm⟩

theorem c5_reply_shape_witness :
    ∃ (throttled : Bool) (res : RateLimitResult),
      ([0, 5, 4, 0, 1] : List Int) =
        [if throttled then 1 else 0, res.limit, res.remaining,
         num_seconds res.retry_after, num_seconds res.reset_after] :=
  c5_reply_shape ["throttle", "b", "4", "1", "1"] none 0 [0, 5, 4, 0, 1]
    (some 1000) rfl

/-- C8: a string that fails integer parsing yields a parse error whose
message contains the offending token, and the command propagates exactly that
error when such a token stands in an integer position. -/
theorem c8_parse_error_names_token (s : String) (e : ThrottleError)
    (h : parse_i64 s = Except.error e) :
    (∃ pre post, e.message = pre ++ s ++ post) ∧
    ∀ (bucket c p : String) (stored : Option Int) (now : Int),
      ThrottleCommand.run ["throttle", bucket, s, c, p] stored now =
        Except.error e := by
  constructor
  · unfold parse_i64 at h
    rcases hv : parse_i64_val s with _ | n
    · rw [hv] at h
      simp only [Except.error.injEq] at h
      refine ⟨"Couldn't parse as integer: ", "", ?_⟩
      rw [← h]
      simp [ThrottleError.message]
    · rw [hv] at h
      exact absurd h (by simp)
  · intro bucket c p stored now
    unfold ThrottleCommand.run
    rw [if_neg (by simp)]
    show (parse_i64 s).bind _ = Except.error e
    rw [h]
    rfl

theorem c8_parse_error_names_token_witness :
    (∃ pre post,
      (ThrottleError.generic "Couldn't parse as integer: abc").message =
        pre ++ "abc" ++ post) ∧
    ∀ (bucket c p : String) (stored : Option Int) (now : Int),
      ThrottleCommand.run ["throttle", bucket, "abc", c, p] stored now =
        Except.error (ThrottleError.generic "Couldn't parse as integer: abc") :=
  c8_parse_error_names_token "abc"
    (ThrottleError.generic "Couldn't parse as integer: abc") rfl

/-- The parse-bind chain of `ThrottleCommand.run` collapses once each parse
result is known to be `ok`. -/
theorem bind_chain_ok (x y z w : Except ThrottleError Int) (mb c p qv : Int)
    (stored : Option Int) (now : Int)
    (hx : x = Except.ok mb) (hy : y = Except.ok c) (hz : z = Except.ok p)
    (hw : w = Except.ok qv) :
    (x.bind fun max_burst => y.bind fun count => z.bind fun period =>
      w.bind fun quantity =>
        run_limiter max_burst count period quantity stored now) =
      run_limiter mb c p qv stored now := by
  subst hx
  subst hy
  subst hz
  subst hw
  rfl

/-- With five arguments that all parse, `ThrottleCommand.run` proceeds
straight to the limiter with quantity 1 — the adapter performs no further
validation of any parsed value. -/
theorem run_parses_five (bucket smb sc sp : String) (mb c p : Int)
    (stored : Option Int) (now : Int)
    (hmb : parse_i64 smb = Except.ok mb) (hc : parse_i64 sc = Except.ok c)
    (hp : parse_i64 sp = Except.ok p) :
    ThrottleCommand.run ["throttle", bucket, smb, sc, sp] stored now =
      run_limiter mb c p 1 stored now := by
  unfold ThrottleCommand.run
  rw [if_neg (by simp)]
  exact bind_chain_ok (parse_i64 smb) (parse_i64 sc) (parse_i64 sp)
    (Except.ok 1) mb c p 1 stored now hmb hc hp rfl

/-- With six arguments that all parse, `ThrottleCommand.run` proceeds
straight to the limiter with the supplied quantity, whatever its sign. -/
theorem run_parses_six (bucket smb sc sp sq : String) (mb c p qv : Int)
    (stored : Option Int) (now : Int)
    (hmb : parse_i64 smb = Except.ok mb) (hc : parse_i64 sc = Except.ok c)
    (hp : parse_i64 sp = Except.ok p) (hq : parse_i64 sq = Except.ok qv) :
    ThrottleCommand.run ["throttle", bucket, smb, sc, sp, sq] stored now =
      run_limiter mb c p qv stored now := by
  unfold ThrottleCommand.run
  rw [if_neg (by simp)]
  exact bind_chain_ok (parse_i64 smb) (parse_i64 sc) (parse_i64 sp)
    (parse_i64 sq) mb c p qv stored now hmb hc hp hq

/-- C3 (counterexample): with `count = -1` (non-positive) and `period = 1`
the command returns no error at all — the request is not rejected as a
quota-invalid caller error; the engine runs and produces a reply. -/
theorem c3_counterexample :
    ThrottleCommand.run ["throttle", "b", "5", "-1", "1"] none 0 =
      Except.ok ([1, 6, 6, 5, 0], none) := rfl

/-- C3 (amended): the adapter performs no validation of count or period — a
non-positive count or period is parsed and passed through the rate
derivation into the engine, and no quota-invalid error is produced. -/
theorem c3_no_quota_validation (bucket smb sc sp : String) (mb c p : Int)
    (stored : Option Int) (now : Int)
    (hmb : parse_i64 smb = Except.ok mb) (hc : parse_i64 sc = Except.ok c)
    (hp : parse_i64 sp = Except.ok p) (hnp : c ≤ 0 ∨ p ≤ 0) :
    ThrottleCommand.run ["throttle", bucket, smb, sc, sp] stored now =
      run_limiter mb c p 1 stored now ∧
    ∃ reply st',
      ThrottleCommand.run ["throttle", bucket, smb, sc, sp] stored now =
        Except.ok (reply, st') := by
  have hrun := run_parses_five bucket smb sc sp mb c p stored now hmb hc hp
  refine ⟨hrun, ?_⟩
  rcases hr : rate_limit ⟨mb, ⟨actions_per_second c p⟩⟩ stored now 1 with
    ⟨t, res, st⟩
  refine ⟨reply_of t res, st, ?_⟩
  rw [hrun]
  simp only [run_limiter]
  rw [hr]

theorem c3_no_quota_validation_witness :
    parse_i64 "5" = Except.ok 5 ∧ parse_i64 "-1" = Except.ok (-1) ∧
    parse_i64 "1" = Except.ok 1 ∧ ((-1 : Int) ≤ 0 ∨ (1 : Int) ≤ 0) ∧
    (ThrottleCommand.run ["throttle", "b", "5", "-1", "1"] none 0 =
        run_limiter 5 (-1) 1 1 none 0 ∧
      ∃ reply st',
        ThrottleCommand.run ["throttle", "b", "5", "-1", "1"] none 0 =
          Except.ok (reply, st')) :=
  ⟨rfl, rfl, rfl, Or.inl (by norm_num),
    c3_no_quota_validation "b" "5" "-1" "1" 5 (-1) 1 none 0 rfl rfl rfl
      (Or.inl (by norm_num))⟩

/-- C4 (counterexample): a supplied `quantity = 0` is not rejected — the
evaluation runs, is even admitted, and writes bucket state. -/
theorem c4_counterexample :
    ThrottleCommand.run ["throttle", "b", "5", "1", "1", "0"] none 0 =
      Except.ok ([0, 6, 6, 0, 0], some 0) := rfl

/-- C4 (amended): when the quantity argument is omitted the adapter
evaluates with quantity 1; a supplied quantity — including one ≤ 0 — is
passed to the rate-limit evaluation unchecked, not rejected. -/
theorem c4_quantity_default_not_validated (bucket smb sc sp sq : String)
    (mb c p qv : Int) (stored : Option Int) (now : Int)
    (hmb : parse_i64 smb = Except.ok mb) (hc : parse_i64 sc = Except.ok c)
    (hp : parse_i64 sp = Except.ok p) :
    ThrottleCommand.run ["throttle", bucket, smb, sc, sp] stored now =
      run_limiter mb c p 1 stored now ∧
    (parse_i64 sq = Except.ok qv →
      ThrottleCommand.run ["throttle", bucket, smb, sc, sp, sq] stored now =
        run_limiter mb c p qv stored now) :=
  ⟨run_parses_five bucket smb sc sp mb c p stored now hmb hc hp,
    fun hq => run_parses_six bucket smb sc sp sq mb c p qv stored now hmb hc hp hq⟩

theorem c4_quantity_default_not_validated_witness :
    parse_i64 "5" = Except.ok 5 ∧ parse_i64 "1" = Except.ok 1 ∧
    (ThrottleCommand.run ["throttle", "b", "5", "1", "1"] none 0 =
        run_limiter 5 1 1 1 none 0 ∧
      (parse_i64 "0" = Except.ok 0 →
        ThrottleCommand.run ["throttle", "b", "5", "1", "1", "0"] none 0 =
          run_limiter 5 1 1 0 none 0)) :=
  ⟨rfl, rfl,
    c4_quantity_default_not_validated "b" "5" "1" "1" "0" 5 1 1 0 none 0
      rfl rfl rfl⟩

/-- C6 (counterexample): with `count = 3, period = 1` the derived emission
interval is 333 ms, which is not the duration `period / count` (1000/3 ms):
the derivation is not exact division. -/
theorem c6_counterexample :
    ¬ ((actions_per_second 3 1 : ℚ) = (1 : ℚ) / 3 * 1000) := by
  have h : actions_per_second 3 1 = 333 := by decide
  rw [h]
  norm_num

/-- C6 (amended): the adapter derives the rate's emission interval by
evaluating `period / count` in 64-bit floating point, scaling to
milliseconds and truncating to a whole number of milliseconds; this follows
the duration `period / count` only approximately — exactly at representable
points such as the source doc comment's own example (10 actions every 2 s →
exactly 200 ms) and the trivial cases, but not in general: `count = 3,
period = 1` gives 333 ms, not the duration 1000/3 ms. -/
theorem c6_emission_interval_millisecond_truncation :
    actions_per_second 1 1 = 1000 ∧
    actions_per_second 1 2 = 2000 ∧
    actions_per_second 10 2 = 200 ∧
    actions_per_second 3 1 = 333 ∧
    ¬ ((actions_per_second 3 1 : ℚ) = (1 : ℚ) / 3 * 1000) := by
  refine ⟨by decide, by decide, by decide, by decide, ?_⟩
  have h : actions_per_second 3 1 = 333 := by decide
  rw [h]
  norm_num

/-- C10 (counterexample): at `period = 10^13`, `count = 10^16 + 1` — valid
positive i64 inputs with count greater than 1000·period — the floating-point
chain rounds to exactly 1.0, so `actions_per_second` returns a 1 ms
duration, not a zero-length one: "any count greater than 1000 times period"
fails, and the constructed `Rate` does not violate `period > 0` there. -/
theorem c10_counterexample :
    (0 : Int) < 10000000000000 ∧
    1000 * 10000000000000 < (10000000000000001 : Int) ∧
    actions_per_second 10000000000000001 10000000000000 = 1 ∧
    ¬ (actions_per_second 10000000000000001 10000000000000 = 0) := by
  exact ⟨by decide, by decide, by decide, by decide⟩

/-- C10 (amended): for some valid positive inputs with count greater than
1000·period — e.g. `count = 2000, period = 1` — `actions_per_second` returns
a zero-length duration, so the constructed `Rate` has `period = 0` in
violation of the invariant `period > 0`, and no error is raised: for every
store state and clock the command proceeds into the engine with the
degenerate rate and replies normally (at extreme magnitudes floating-point
rounding can instead produce a positive interval, per the counterexample). -/
theorem c10_zero_interval_unchecked (stored : Option Int) (now : Int) :
    actions_per_second 2000 1 = 0 ∧ ¬ (0 < actions_per_second 2000 1) ∧
    ThrottleCommand.run ["throttle", "b", "5", "2000", "1"] stored now =
      run_limiter 5 2000 1 1 stored now ∧
    ∃ reply st',
      ThrottleCommand.run ["throttle", "b", "5", "2000", "1"] stored now =
        Except.ok (reply, st') := by
  have h0 : actions_per_second 2000 1 = 0 := by decide
  have hrun := run_parses_five "b" "5" "2000" "1" 5 2000 1 stored now rfl rfl rfl
  refine ⟨h0, by rw [h0]; exact lt_irrefl 0, hrun, ?_⟩
  rcases hr : rate_limit ⟨5, ⟨actions_per_second 2000 1⟩⟩ stored now 1 with
    ⟨t, res, st⟩
  refine ⟨reply_of t res, st, ?_⟩
  rw [hrun]
  simp only [run_limiter]
  rw [hr]

theorem c10_zero_interval_unchecked_witness :
    actions_per_second 2000 1 = 0 ∧ ¬ (0 < actions_per_second 2000 1) ∧
    ThrottleCommand.run ["throttle", "b", "5", "2000", "1"] none 0 =
      run_limiter 5 2000 1 1 none 0 ∧
    ∃ reply st',
      ThrottleCommand.run ["throttle", "b", "5", "2000", "1"] none 0 =
        Except.ok (reply, st') :=
  c10_zero_interval_unchecked none 0
